import Mathlib

/-!
# Alert request handlers (`api/alert.go`)

A shallow embedding of the four alert handlers of `api/alert.go`
(`handleGetAlerts`, `handleAlertCreate`, `handleAlertUpdate`,
`handleAlertDelete`) together with the package-level variable
`ActiveAlerts`.

The handlers are Go closures over `a.db`, the response writer `w` and the
request `r`.  Here a handler is a function from the world before the call to
an outcome and the world after it.  The world holds the persistence state,
the `ActiveAlerts` variable, what has been written to `w`, and a log of the
calls made on `a.db`.  The persistence layer is an interface value, so it is a
parameter (`AlertStore`); so are the two request helpers whose bodies live in
another file of the package (`Helpers`).
-/

set_option autoImplicit false

namespace Thunderdome

/-! ## Data model -/

/-- A Go `error` value that is not nil, represented by its message. -/
abbrev GoError := String

/-- Modelled from the spec: the `model.Alert` record (its declaration is in another
package); section 3 of the specification lists these seven fields. -/
structure Alert where
  ID : String
  Name : String
  Type_ : String
  Content : String
  Active : Bool
  AllowDismiss : Bool
  RegisteredOnly : Bool
  deriving DecidableEq, Repr

/-- A value of Go type `interface{}` as produced by decoding a JSON document:
`nil`, `bool`, a number (kept as its literal), `string`, a slice or a map. -/
inductive JSONValue where
  | null
  | bool (b : Bool)
  | number (lit : String)
  | string (s : String)
  | array (xs : List JSONValue)
  | object (kvs : List (String × JSONValue))

/-- The Go type `map[string]interface{}`; `none` is the nil map. -/
abbrev KeyVal := Option (List (String × JSONValue))

/-- The index expression `keyVal[k]`: the zero value (a nil interface) when the
map is nil or has no such key. -/
def KeyVal.index (keyVal : KeyVal) (k : String) : JSONValue :=
  match keyVal with
  | none => JSONValue.null
  | some m => (m.lookup k).getD JSONValue.null

/-- The type assertion `v.(string)` without the comma-ok form: `none` stands for
the run-time panic. -/
def assertString : JSONValue → Option String
  | JSONValue.string s => some s
  | _ => none

/-- The type assertion `v.(bool)` without the comma-ok form: `none` stands for
the run-time panic. -/
def assertBool : JSONValue → Option Bool
  | JSONValue.bool b => some b
  | _ => none

/-- The `pagination` struct literal built by `handleGetAlerts`. -/
structure pagination where
  Count : Int
  Offset : Int
  Limit : Int
  deriving DecidableEq, Repr

/-- The constant `http.StatusInternalServerError`. -/
def StatusInternalServerError : Nat := 500

/-- The constant `http.StatusOK`. -/
def StatusOK : Nat := 200

/-- One write on the `http.ResponseWriter`.  `failure` and `success` are what the
envelope functions `Failure` and `Success` write; `header` is a bare
`WriteHeader`, which only the request helpers can issue. -/
inductive Written where
  | failure (status : Nat) (err : GoError)
  | success (status : Nat) (data : List Alert) (meta : Option pagination)
  | header (status : Nat)
  deriving DecidableEq, Repr

/-- The HTTP status carried by a write. -/
def Written.status : Written → Nat
  | Written.failure s _ => s
  | Written.success s _ _ => s
  | Written.header s => s

/-- The request as the handlers read it: the route variables of `mux.Vars(r)`,
the query string and the raw body. -/
structure Request where
  vars : List (String × String)
  query : List (String × String)
  body : String
  deriving DecidableEq, Repr

/-- The index expression `vars[k]` on the `map[string]string` of `mux.Vars(r)`:
the empty string when the key is absent. -/
def varsIndex (vars : List (String × String)) (k : String) : String :=
  (vars.lookup k).getD ""

/-- A call made on `a.db`, with its arguments in call order. -/
inductive DbCall where
  | alertsList (limit offset : Int)
  | alertsCreate (name type content : String) (active allowDismiss registeredOnly : Bool)
  | alertsUpdate (id name type content : String) (active allowDismiss registeredOnly : Bool)
  | alertDelete (id : String)
  | getActiveAlerts
  deriving DecidableEq, Repr

/-- The methods of `a.db` used by the alert handlers, as functions on the
persistence state `σ`.  Every method may change the state; an `error` result of
`nil` is `none`. -/
structure AlertStore (σ : Type) where
  AlertsList : σ → Int → Int → σ × List Alert × Int × Option GoError
  AlertsCreate : σ → String → String → String → Bool → Bool → Bool → σ × Option GoError
  AlertsUpdate : σ → String → String → String → String → Bool → Bool → Bool → σ × Option GoError
  AlertDelete : σ → String → σ × Option GoError
  GetActiveAlerts : σ → σ × List Alert

/-- The two request helpers of the package that the alert handlers call.  Each
receives `r` and `w`: it returns its result together with what it wrote on `w`. -/
structure Helpers where
  getLimitOffsetFromRequest : Request → (Int × Int) × List Written
  getJSONRequestBody : Request → KeyVal × List Written

/-- Everything a handler can read or change. -/
structure World (σ : Type) where
  store : σ
  ActiveAlerts : List Alert
  w : List Written
  calls : List DbCall

/-- How a handler invocation ends: by returning, or by a run-time panic that
nothing in the handler recovers. -/
inductive Outcome where
  | returned
  | panicked
  deriving DecidableEq, Repr

/-! ## Response envelope -/

/-- Modelled from the spec: the envelope function `Failure(w, r, status, err)` (defined
elsewhere in the package) writes one failure response with the status and the
error. -/
def Failure (w : List Written) (status : Nat) (err : GoError) : List Written :=
  w ++ [Written.failure status err]

/-- Modelled from the spec: the envelope function `Success(w, r, status, data, meta)`
(defined elsewhere in the package) writes one success response with the status,
the data and the optional pagination metadata. -/
def Success (w : List Written) (status : Nat) (data : List Alert)
    (meta : Option pagination) : List Written :=
  w ++ [Written.success status data meta]

/-! ## Handlers -/

section Handlers

variable {σ : Type}

/-- The handler `handleGetAlerts`. -/
def handleGetAlerts (db : AlertStore σ) (hp : Helpers) (r : Request)
    (st : World σ) : Outcome × World σ :=
  match hp.getLimitOffsetFromRequest r with
  | ((Limit, Offset), hw) =>
    match db.AlertsList st.store Limit Offset with
    | (s1, Alerts, Count, err) =>
      let calls1 := st.calls ++ [DbCall.alertsList Limit Offset]
      match err with
      | some e =>
        (Outcome.returned,
          { store := s1, ActiveAlerts := st.ActiveAlerts,
            w := Failure (st.w ++ hw) StatusInternalServerError e, calls := calls1 })
      | none =>
        let Meta : pagination := { Count := Count, Offset := Offset, Limit := Limit }
        (Outcome.returned,
          { store := s1, ActiveAlerts := st.ActiveAlerts,
            w := Success (st.w ++ hw) StatusOK Alerts (some Meta), calls := calls1 })

/-- The handler `handleAlertCreate`. -/
def handleAlertCreate (db : AlertStore σ) (hp : Helpers) (r : Request)
    (st : World σ) : Outcome × World σ :=
  match hp.getJSONRequestBody r with
  | (keyVal, hw) =>
    let st0 : World σ := { st with w := st.w ++ hw }
    match assertString (keyVal.index "name") with
    | none => (Outcome.panicked, st0)
    | some Name =>
    match assertString (keyVal.index "type") with
    | none => (Outcome.panicked, st0)
    | some Type_ =>
    match assertString (keyVal.index "content") with
    | none => (Outcome.panicked, st0)
    | some Content =>
    match assertBool (keyVal.index "active") with
    | none => (Outcome.panicked, st0)
    | some Active =>
    match assertBool (keyVal.index "allowDismiss") with
    | none => (Outcome.panicked, st0)
    | some AllowDismiss =>
    match assertBool (keyVal.index "registeredOnly") with
    | none => (Outcome.panicked, st0)
    | some RegisteredOnly =>
    match db.AlertsCreate st0.store Name Type_ Content Active AllowDismiss RegisteredOnly with
    | (s1, err) =>
      let calls1 := st0.calls ++
        [DbCall.alertsCreate Name Type_ Content Active AllowDismiss RegisteredOnly]
      match err with
      | some e =>
        (Outcome.returned,
          { store := s1, ActiveAlerts := st0.ActiveAlerts,
            w := Failure st0.w StatusInternalServerError e, calls := calls1 })
      | none =>
        match db.GetActiveAlerts s1 with
        | (s2, active) =>
          (Outcome.returned,
            { store := s2, ActiveAlerts := active,
              w := Success st0.w StatusOK active none,
              calls := calls1 ++ [DbCall.getActiveAlerts] })

/-- The handler `handleAlertUpdate`. -/
def handleAlertUpdate (db : AlertStore σ) (hp : Helpers) (r : Request)
    (st : World σ) : Outcome × World σ :=
  match hp.getJSONRequestBody r with
  | (keyVal, hw) =>
    let st0 : World σ := { st with w := st.w ++ hw }
    let vars := r.vars
    let ID := varsIndex vars "alertId"
    match assertString (keyVal.index "name") with
    | none => (Outcome.panicked, st0)
    | some Name =>
    match assertString (keyVal.index "type") with
    | none => (Outcome.panicked, st0)
    | some Type_ =>
    match assertString (keyVal.index "content") with
    | none => (Outcome.panicked, st0)
    | some Content =>
    match assertBool (keyVal.index "active") with
    | none => (Outcome.panicked, st0)
    | some Active =>
    match assertBool (keyVal.index "allowDismiss") with
    | none => (Outcome.panicked, st0)
    | some AllowDismiss =>
    match assertBool (keyVal.index "registeredOnly") with
    | none => (Outcome.panicked, st0)
    | some RegisteredOnly =>
    match db.AlertsUpdate st0.store ID Name Type_ Content Active AllowDismiss RegisteredOnly with
    | (s1, err) =>
      let calls1 := st0.calls ++
        [DbCall.alertsUpdate ID Name Type_ Content Active AllowDismiss RegisteredOnly]
      match err with
      | some e =>
        (Outcome.returned,
          { store := s1, ActiveAlerts := st0.ActiveAlerts,
            w := Failure st0.w StatusInternalServerError e, calls := calls1 })
      | none =>
        match db.GetActiveAlerts s1 with
        | (s2, active) =>
          (Outcome.returned,
            { store := s2, ActiveAlerts := active,
              w := Success st0.w StatusOK active none,
              calls := calls1 ++ [DbCall.getActiveAlerts] })

/-- The handler `handleAlertDelete`. -/
def handleAlertDelete (db : AlertStore σ) (r : Request)
    (st : World σ) : Outcome × World σ :=
  let vars := r.vars
  let AlertID := varsIndex vars "alertId"
  match db.AlertDelete st.store AlertID with
  | (s1, err) =>
    let calls1 := st.calls ++ [DbCall.alertDelete AlertID]
    match err with
    | some e =>
      (Outcome.returned,
        { store := s1, ActiveAlerts := st.ActiveAlerts,
          w := Failure st.w StatusInternalServerError e, calls := calls1 })
    | none =>
      match db.GetActiveAlerts s1 with
      | (s2, active) =>
        (Outcome.returned,
          { store := s2, ActiveAlerts := active,
            w := Success st.w StatusOK active none,
            calls := calls1 ++ [DbCall.getActiveAlerts] })

end Handlers

/-! ## A persistence layer following the specification -/

/-- Modelled from the spec: the state of the persistence layer (its implementation is in
another package).  It holds the alert records.  The specification leaves to the
persistence layer when a call fails and whether an unknown id is an error, so
both are part of the state: `fault` is the error every call returns while the
storage is unavailable, and `strictIDs` says that an update or delete of an
unknown id is an error instead of a no-op. -/
structure SpecStore where
  alerts : List Alert
  nextID : Nat
  fault : Option GoError
  strictIDs : Bool
  deriving DecidableEq, Repr

/-- Modelled from the spec: the five values of an alert's `Type` (section 3; the same list is
the `Enums(...)` annotation of the `type` parameter in `api/alert.go`). -/
def alertTypes : List String := ["ERROR", "INFO", "NEW", "SUCCESS", "WARNING"]

/-- Modelled from the spec: whether some stored alert has the given id (ids are unique
and stable, section 3). -/
def SpecStore.hasID (s : SpecStore) (id : String) : Bool :=
  s.alerts.any (fun a => a.ID == id)

/-- Modelled from the spec: `AlertsList(limit, offset)` of the persistence layer: the page of
at most `limit` alerts starting at row `offset`, and the total number of alerts
(`limit` is the "Max number of results to return" and `offset` the "Starting
point to return rows from" of the handler's parameter annotations). -/
def SpecStore.AlertsList (s : SpecStore) (limit offset : Int) :
    SpecStore × List Alert × Int × Option GoError :=
  match s.fault with
  | some e => (s, [], 0, some e)
  | none => (s, (s.alerts.drop offset.toNat).take limit.toNat, (s.alerts.length : Int), none)

/-- Modelled from the spec: `AlertsCreate` of the persistence layer: validates `Type`, assigns
a fresh id and stores the record. -/
def SpecStore.AlertsCreate (s : SpecStore) (name type content : String)
    (active allowDismiss registeredOnly : Bool) : SpecStore × Option GoError :=
  match s.fault with
  | some e => (s, some e)
  | none =>
    if alertTypes.contains type then
      let created : Alert :=
        { ID := toString s.nextID, Name := name, Type_ := type, Content := content,
          Active := active, AllowDismiss := allowDismiss, RegisteredOnly := registeredOnly }
      ({ s with alerts := s.alerts ++ [created], nextID := s.nextID + 1 }, none)
    else (s, some "invalid alert type")

/-- Modelled from the spec: the record with every mutable field replaced ("full replace of
all mutable fields, not partial patch"); the id is kept. -/
def Alert.replaceFields (a : Alert) (name type content : String)
    (active allowDismiss registeredOnly : Bool) : Alert :=
  { ID := a.ID, Name := name, Type_ := type, Content := content, Active := active,
    AllowDismiss := allowDismiss, RegisteredOnly := registeredOnly }

/-- Modelled from the spec: `AlertsUpdate` of the persistence layer: validates `Type` and
replaces all six mutable fields of the alert with the given id ("full
replacement semantics"). -/
def SpecStore.AlertsUpdate (s : SpecStore) (id name type content : String)
    (active allowDismiss registeredOnly : Bool) : SpecStore × Option GoError :=
  match s.fault with
  | some e => (s, some e)
  | none =>
    if alertTypes.contains type then
      if s.strictIDs && !s.hasID id then (s, some "alert not found")
      else
        ({ s with alerts := s.alerts.map (fun a =>
            if a.ID == id then
              a.replaceFields name type content active allowDismiss registeredOnly
            else a) }, none)
    else (s, some "invalid alert type")

/-- Modelled from the spec: `AlertDelete` of the persistence layer: removes the alert with
the given id. -/
def SpecStore.AlertDelete (s : SpecStore) (id : String) : SpecStore × Option GoError :=
  match s.fault with
  | some e => (s, some e)
  | none =>
    if s.strictIDs && !s.hasID id then (s, some "alert not found")
    else ({ s with alerts := s.alerts.filter (fun a => !(a.ID == id)) }, none)

/-- Modelled from the spec: `GetActiveAlerts` of the persistence layer: the alerts whose
`Active` flag is set. -/
def SpecStore.GetActiveAlerts (s : SpecStore) : SpecStore × List Alert :=
  (s, s.alerts.filter (fun a => a.Active))

/-- Modelled from the spec: the persistence interface of section 6, implemented on
`SpecStore`. -/
def specStore : AlertStore SpecStore where
  AlertsList := SpecStore.AlertsList
  AlertsCreate := SpecStore.AlertsCreate
  AlertsUpdate := SpecStore.AlertsUpdate
  AlertDelete := SpecStore.AlertDelete
  GetActiveAlerts := SpecStore.GetActiveAlerts

/-! ## Predicates used in the statements -/

/-- The key `k` is present in the body with a string value. -/
def KeyVal.hasString (keyVal : KeyVal) (k : String) : Bool :=
  match keyVal with
  | none => false
  | some m =>
    match m.lookup k with
    | some (JSONValue.string _) => true
    | _ => false

/-- The key `k` is present in the body with a boolean value. -/
def KeyVal.hasBool (keyVal : KeyVal) (k : String) : Bool :=
  match keyVal with
  | none => false
  | some m =>
    match m.lookup k with
    | some (JSONValue.bool _) => true
    | _ => false

/-- At least one of `name`, `type`, `content` is absent or not a string, or at
least one of `active`, `allowDismiss`, `registeredOnly` is absent or not a
boolean. -/
def KeyVal.defective (keyVal : KeyVal) : Bool :=
  !(keyVal.hasString "name") || !(keyVal.hasString "type") || !(keyVal.hasString "content")
    || !(keyVal.hasBool "active") || !(keyVal.hasBool "allowDismiss")
    || !(keyVal.hasBool "registeredOnly")

/-- The body carries the six fields with their declared types and these values. -/
def KeyVal.carries (keyVal : KeyVal) (name type content : String)
    (active allowDismiss registeredOnly : Bool) : Prop :=
  keyVal.index "name" = JSONValue.string name ∧
  keyVal.index "type" = JSONValue.string type ∧
  keyVal.index "content" = JSONValue.string content ∧
  keyVal.index "active" = JSONValue.bool active ∧
  keyVal.index "allowDismiss" = JSONValue.bool allowDismiss ∧
  keyVal.index "registeredOnly" = JSONValue.bool registeredOnly

/-! ## Concrete data for the examples -/

/-- A well-formed create/update body. -/
def exampleBody : KeyVal :=
  some [("name", JSONValue.string "Maintenance"), ("type", JSONValue.string "WARNING"),
    ("content", JSONValue.string "DB down 10pm"), ("active", JSONValue.bool true),
    ("allowDismiss", JSONValue.bool true), ("registeredOnly", JSONValue.bool false)]

/-- Helpers that read a limit of 2 and an offset of 1, decode the body to
`exampleBody`, and write nothing. -/
def exampleHelpers : Helpers where
  getLimitOffsetFromRequest := fun _ => ((2, 1), [])
  getJSONRequestBody := fun _ => (exampleBody, [])

/-- A request for the alert with id `"1"`. -/
def exampleRequest : Request :=
  { vars := [("alertId", "1")], query := [("limit", "2"), ("offset", "1")], body := "" }

/-- A body whose `type` is none of the five alert types. -/
def bogusBody : KeyVal :=
  some [("type", JSONValue.string "BOGUS"), ("name", JSONValue.string "n"),
    ("registeredOnly", JSONValue.bool true), ("content", JSONValue.string "c"),
    ("active", JSONValue.bool false), ("allowDismiss", JSONValue.bool true),
    ("extra", JSONValue.number "1")]

/-- Helpers that decode the body to `bogusBody` and write nothing. -/
def bogusHelpers : Helpers where
  getLimitOffsetFromRequest := fun _ => ((2, 1), [])
  getJSONRequestBody := fun _ => (bogusBody, [])

/-- A body in which `active` is a string and `content` is missing. -/
def defectiveBody : KeyVal :=
  some [("name", JSONValue.string "n"), ("type", JSONValue.string "INFO"),
    ("active", JSONValue.string "true"), ("allowDismiss", JSONValue.bool true),
    ("registeredOnly", JSONValue.bool false)]

/-- Helpers whose body helper writes a bare 400 header and returns `defectiveBody`. -/
def defectiveHelpers : Helpers where
  getLimitOffsetFromRequest := fun _ => ((2, 1), [])
  getJSONRequestBody := fun _ => (defectiveBody, [Written.header 400])

/-- A request for an alert id that no example store holds. -/
def missingRequest : Request :=
  { vars := [("alertId", "42")], query := [], body := "" }

/-- Three stored alerts, two of them active. -/
def exampleAlerts : List Alert :=
  [ { ID := "0", Name := "a", Type_ := "INFO", Content := "x", Active := true,
      AllowDismiss := false, RegisteredOnly := false },
    { ID := "1", Name := "b", Type_ := "NEW", Content := "y", Active := false,
      AllowDismiss := true, RegisteredOnly := false },
    { ID := "2", Name := "c", Type_ := "ERROR", Content := "z", Active := true,
      AllowDismiss := true, RegisteredOnly := true } ]

/-- A working store holding `exampleAlerts`. -/
def exampleStore : SpecStore :=
  { alerts := exampleAlerts, nextID := 3, fault := none, strictIDs := false }

/-- The same store while the storage is unavailable. -/
def faultyStore : SpecStore :=
  { alerts := exampleAlerts, nextID := 3, fault := some "connection refused",
    strictIDs := false }

/-- A cache entry that is not in any of the example stores. -/
def staleAlert : Alert :=
  { ID := "9", Name := "old", Type_ := "INFO", Content := "", Active := true,
    AllowDismiss := false, RegisteredOnly := false }

/-- A world whose cache holds one stale entry. -/
def exampleWorld (s : SpecStore) : World SpecStore :=
  { store := s, ActiveAlerts := [staleAlert], w := [], calls := [] }

/-- A persistence layer that does nothing but record, in its own state, each call
it receives with the arguments it receives; no call fails. -/
def recordingStore : AlertStore (List DbCall) where
  AlertsList := fun s limit offset => (s ++ [DbCall.alertsList limit offset], [], 0, none)
  AlertsCreate := fun s name type content active allowDismiss registeredOnly =>
    (s ++ [DbCall.alertsCreate name type content active allowDismiss registeredOnly], none)
  AlertsUpdate := fun s id name type content active allowDismiss registeredOnly =>
    (s ++ [DbCall.alertsUpdate id name type content active allowDismiss registeredOnly], none)
  AlertDelete := fun s id => (s ++ [DbCall.alertDelete id], none)
  GetActiveAlerts := fun s => (s ++ [DbCall.getActiveAlerts], [])

/-- A world over `recordingStore` in which nothing has been received yet. -/
def recordingWorld : World (List DbCall) :=
  { store := [], ActiveAlerts := [staleAlert], w := [], calls := [] }

/-- The store `exampleStore` after creating the alert of `exampleBody`. -/
def storeAfterCreate : SpecStore :=
  { alerts := exampleAlerts ++
      [{ ID := "3", Name := "Maintenance", Type_ := "WARNING", Content := "DB down 10pm",
         Active := true, AllowDismiss := true, RegisteredOnly := false }],
    nextID := 4, fault := none, strictIDs := false }

/-- The store `exampleStore` after updating alert `"1"` with `exampleBody`. -/
def storeAfterUpdate : SpecStore :=
  { alerts :=
      [ { ID := "0", Name := "a", Type_ := "INFO", Content := "x", Active := true,
          AllowDismiss := false, RegisteredOnly := false },
        { ID := "1", Name := "Maintenance", Type_ := "WARNING", Content := "DB down 10pm",
          Active := true, AllowDismiss := true, RegisteredOnly := false },
        { ID := "2", Name := "c", Type_ := "ERROR", Content := "z", Active := true,
          AllowDismiss := true, RegisteredOnly := true } ],
    nextID := 3, fault := none, strictIDs := false }

/-- The store `exampleStore` after deleting alert `"1"`. -/
def storeAfterDelete : SpecStore :=
  { alerts :=
      [ { ID := "0", Name := "a", Type_ := "INFO", Content := "x", Active := true,
          AllowDismiss := false, RegisteredOnly := false },
        { ID := "2", Name := "c", Type_ := "ERROR", Content := "z", Active := true,
          AllowDismiss := true, RegisteredOnly := true } ],
    nextID := 3, fault := none, strictIDs := false }

/-! ## Theorems -/

section Theorems

variable {σ : Type}

/-- The assertion `keyVal[k].(string)` panics exactly when `k` is absent or not a
string. -/
theorem assertString_index_eq_none (keyVal : KeyVal) (k : String) :
    assertString (keyVal.index k) = none ↔ keyVal.hasString k = false := by
  cases keyVal with
  | none => simp [KeyVal.index, KeyVal.hasString, assertString]
  | some m =>
    cases hl : m.lookup k with
    | none => simp [KeyVal.index, KeyVal.hasString, assertString, hl]
    | some v => cases v <;> simp [KeyVal.index, KeyVal.hasString, assertString, hl]

/-- The assertion `keyVal[k].(bool)` panics exactly when `k` is absent or not a
boolean. -/
theorem assertBool_index_eq_none (keyVal : KeyVal) (k : String) :
    assertBool (keyVal.index k) = none ↔ keyVal.hasBool k = false := by
  cases keyVal with
  | none => simp [KeyVal.index, KeyVal.hasBool, assertBool]
  | some m =>
    cases hl : m.lookup k with
    | none => simp [KeyVal.index, KeyVal.hasBool, assertBool, hl]
    | some v => cases v <;> simp [KeyVal.index, KeyVal.hasBool, assertBool, hl]

/-- C1. When the persistence call of a handler returns an error `e`, the handler
returns after writing exactly one response, the failure with status 500
carrying `e`; nothing else is written (so no success response), and
`ActiveAlerts` keeps its value from before the call.  This holds for the four
handlers (list, create, update, delete), any store, any prior cache and any
request whose body carries the six fields with their types. -/
theorem persistence_error_is_500 (db : AlertStore σ) (hp : Helpers) (r : Request)
    (st : World σ) (e : GoError) :
    (∀ (limit offset : Int) (hw : List Written) (s1 : σ) (alerts : List Alert) (count : Int),
      hp.getLimitOffsetFromRequest r = ((limit, offset), hw) →
      db.AlertsList st.store limit offset = (s1, alerts, count, some e) →
      handleGetAlerts db hp r st =
        (Outcome.returned,
          { store := s1, ActiveAlerts := st.ActiveAlerts,
            w := st.w ++ hw ++ [Written.failure 500 e],
            calls := st.calls ++ [DbCall.alertsList limit offset] })) ∧
    (∀ (keyVal : KeyVal) (hw : List Written) (name type content : String)
        (active allowDismiss registeredOnly : Bool) (s1 : σ),
      hp.getJSONRequestBody r = (keyVal, hw) →
      keyVal.carries name type content active allowDismiss registeredOnly →
      db.AlertsCreate st.store name type content active allowDismiss registeredOnly
        = (s1, some e) →
      handleAlertCreate db hp r st =
        (Outcome.returned,
          { store := s1, ActiveAlerts := st.ActiveAlerts,
            w := st.w ++ hw ++ [Written.failure 500 e],
            calls := st.calls ++
              [DbCall.alertsCreate name type content active allowDismiss registeredOnly] })) ∧
    (∀ (keyVal : KeyVal) (hw : List Written) (name type content : String)
        (active allowDismiss registeredOnly : Bool) (s1 : σ),
      hp.getJSONRequestBody r = (keyVal, hw) →
      keyVal.carries name type content active allowDismiss registeredOnly →
      db.AlertsUpdate st.store (varsIndex r.vars "alertId") name type content active
        allowDismiss registeredOnly = (s1, some e) →
      handleAlertUpdate db hp r st =
        (Outcome.returned,
          { store := s1, ActiveAlerts := st.ActiveAlerts,
            w := st.w ++ hw ++ [Written.failure 500 e],
            calls := st.calls ++
              [DbCall.alertsUpdate (varsIndex r.vars "alertId") name type content active
                allowDismiss registeredOnly] })) ∧
    (∀ (s1 : σ),
      db.AlertDelete st.store (varsIndex r.vars "alertId") = (s1, some e) →
      handleAlertDelete db r st =
        (Outcome.returned,
          { store := s1, ActiveAlerts := st.ActiveAlerts,
            w := st.w ++ [Written.failure 500 e],
            calls := st.calls ++ [DbCall.alertDelete (varsIndex r.vars "alertId")] })) := by
  refine ⟨?_, ?_, ?_, ?_⟩
  · intro limit offset hw s1 alerts count hreq hdb
    simp [handleGetAlerts, hreq, hdb, Failure, StatusInternalServerError]
  · intro keyVal hw name type content active allowDismiss registeredOnly s1 hreq hbody hdb
    obtain ⟨h1, h2, h3, h4, h5, h6⟩ := hbody
    simp [handleAlertCreate, hreq, h1, h2, h3, h4, h5, h6, assertString, assertBool, hdb,
      Failure, StatusInternalServerError]
  · intro keyVal hw name type content active allowDismiss registeredOnly s1 hreq hbody hdb
    obtain ⟨h1, h2, h3, h4, h5, h6⟩ := hbody
    simp [handleAlertUpdate, hreq, h1, h2, h3, h4, h5, h6, assertString, assertBool, hdb,
      Failure, StatusInternalServerError]
  · intro s1 hdb
    simp [handleAlertDelete, hdb, Failure, StatusInternalServerError]

/-- Witness of C1: with the storage unavailable, each of the four handlers answers
500 with the storage error and leaves the stale cache entry in place. -/
theorem persistence_error_is_500_witness :
    handleGetAlerts specStore exampleHelpers exampleRequest (exampleWorld faultyStore) =
      (Outcome.returned,
        { store := faultyStore, ActiveAlerts := [staleAlert],
          w := [Written.failure 500 "connection refused"],
          calls := [DbCall.alertsList 2 1] }) ∧
    handleAlertCreate specStore exampleHelpers exampleRequest (exampleWorld faultyStore) =
      (Outcome.returned,
        { store := faultyStore, ActiveAlerts := [staleAlert],
          w := [Written.failure 500 "connection refused"],
          calls := [DbCall.alertsCreate "Maintenance" "WARNING" "DB down 10pm" true true
            false] }) ∧
    handleAlertUpdate specStore exampleHelpers exampleRequest (exampleWorld faultyStore) =
      (Outcome.returned,
        { store := faultyStore, ActiveAlerts := [staleAlert],
          w := [Written.failure 500 "connection refused"],
          calls := [DbCall.alertsUpdate "1" "Maintenance" "WARNING" "DB down 10pm" true true
            false] }) ∧
    handleAlertDelete specStore exampleRequest (exampleWorld faultyStore) =
      (Outcome.returned,
        { store := faultyStore, ActiveAlerts := [staleAlert],
          w := [Written.failure 500 "connection refused"],
          calls := [DbCall.alertDelete "1"] }) := by
  have h := persistence_error_is_500 specStore exampleHelpers exampleRequest
    (exampleWorld faultyStore) "connection refused"
  exact ⟨h.1 2 1 [] faultyStore [] 0 rfl rfl,
    h.2.1 exampleBody [] "Maintenance" "WARNING" "DB down 10pm" true true false faultyStore rfl
      ⟨rfl, rfl, rfl, rfl, rfl, rfl⟩ rfl,
    h.2.2.1 exampleBody [] "Maintenance" "WARNING" "DB down 10pm" true true false faultyStore
      rfl ⟨rfl, rfl, rfl, rfl, rfl, rfl⟩ rfl,
    h.2.2.2 faultyStore rfl⟩

/-- C2. When the persistence mutation of create, update or delete returns no error,
the handler returns after writing exactly one response, the success with status
200 and no pagination metadata, and both `ActiveAlerts` after the call and the
response data are the result of `GetActiveAlerts()` on the store as the mutation
left it.  Create answers with the list of active alerts, not with the created
alert. -/
theorem mutation_success_refreshes (db : AlertStore σ) (hp : Helpers) (r : Request)
    (st : World σ) :
    (∀ (keyVal : KeyVal) (hw : List Written) (name type content : String)
        (active allowDismiss registeredOnly : Bool) (s1 : σ),
      hp.getJSONRequestBody r = (keyVal, hw) →
      keyVal.carries name type content active allowDismiss registeredOnly →
      db.AlertsCreate st.store name type content active allowDismiss registeredOnly
        = (s1, none) →
      handleAlertCreate db hp r st =
        (Outcome.returned,
          { store := (db.GetActiveAlerts s1).1, ActiveAlerts := (db.GetActiveAlerts s1).2,
            w := st.w ++ hw ++ [Written.success 200 (db.GetActiveAlerts s1).2 none],
            calls := st.calls ++
              [DbCall.alertsCreate name type content active allowDismiss registeredOnly,
                DbCall.getActiveAlerts] })) ∧
    (∀ (keyVal : KeyVal) (hw : List Written) (name type content : String)
        (active allowDismiss registeredOnly : Bool) (s1 : σ),
      hp.getJSONRequestBody r = (keyVal, hw) →
      keyVal.carries name type content active allowDismiss registeredOnly →
      db.AlertsUpdate st.store (varsIndex r.vars "alertId") name type content active
        allowDismiss registeredOnly = (s1, none) →
      handleAlertUpdate db hp r st =
        (Outcome.returned,
          { store := (db.GetActiveAlerts s1).1, ActiveAlerts := (db.GetActiveAlerts s1).2,
            w := st.w ++ hw ++ [Written.success 200 (db.GetActiveAlerts s1).2 none],
            calls := st.calls ++
              [DbCall.alertsUpdate (varsIndex r.vars "alertId") name type content active
                allowDismiss registeredOnly, DbCall.getActiveAlerts] })) ∧
    (∀ (s1 : σ),
      db.AlertDelete st.store (varsIndex r.vars "alertId") = (s1, none) →
      handleAlertDelete db r st =
        (Outcome.returned,
          { store := (db.GetActiveAlerts s1).1, ActiveAlerts := (db.GetActiveAlerts s1).2,
            w := st.w ++ [Written.success 200 (db.GetActiveAlerts s1).2 none],
            calls := st.calls ++
              [DbCall.alertDelete (varsIndex r.vars "alertId"), DbCall.getActiveAlerts] })) := by
  refine ⟨?_, ?_, ?_⟩
  · intro keyVal hw name type content active allowDismiss registeredOnly s1 hreq hbody hdb
    obtain ⟨h1, h2, h3, h4, h5, h6⟩ := hbody
    simp [handleAlertCreate, hreq, h1, h2, h3, h4, h5, h6, assertString, assertBool, hdb,
      Success, StatusOK]
  · intro keyVal hw name type content active allowDismiss registeredOnly s1 hreq hbody hdb
    obtain ⟨h1, h2, h3, h4, h5, h6⟩ := hbody
    simp [handleAlertUpdate, hreq, h1, h2, h3, h4, h5, h6, assertString, assertBool, hdb,
      Success, StatusOK]
  · intro s1 hdb
    simp [handleAlertDelete, hdb, Success, StatusOK]

/-- Witness of C2: on the working example store each mutation answers 200 with the
active alerts of the store after the mutation, and the stale cache entry is
gone. -/
theorem mutation_success_refreshes_witness :
    handleAlertCreate specStore exampleHelpers exampleRequest (exampleWorld exampleStore) =
      (Outcome.returned,
        { store := storeAfterCreate,
          ActiveAlerts := (SpecStore.GetActiveAlerts storeAfterCreate).2,
          w := [Written.success 200 (SpecStore.GetActiveAlerts storeAfterCreate).2 none],
          calls := [DbCall.alertsCreate "Maintenance" "WARNING" "DB down 10pm" true true false,
            DbCall.getActiveAlerts] }) ∧
    handleAlertUpdate specStore exampleHelpers exampleRequest (exampleWorld exampleStore) =
      (Outcome.returned,
        { store := storeAfterUpdate,
          ActiveAlerts := (SpecStore.GetActiveAlerts storeAfterUpdate).2,
          w := [Written.success 200 (SpecStore.GetActiveAlerts storeAfterUpdate).2 none],
          calls := [DbCall.alertsUpdate "1" "Maintenance" "WARNING" "DB down 10pm" true true
            false, DbCall.getActiveAlerts] }) ∧
    handleAlertDelete specStore exampleRequest (exampleWorld exampleStore) =
      (Outcome.returned,
        { store := storeAfterDelete,
          ActiveAlerts := (SpecStore.GetActiveAlerts storeAfterDelete).2,
          w := [Written.success 200 (SpecStore.GetActiveAlerts storeAfterDelete).2 none],
          calls := [DbCall.alertDelete "1", DbCall.getActiveAlerts] }) := by
  have h := mutation_success_refreshes specStore exampleHelpers exampleRequest
    (exampleWorld exampleStore)
  exact ⟨h.1 exampleBody [] "Maintenance" "WARNING" "DB down 10pm" true true false
      storeAfterCreate rfl ⟨rfl, rfl, rfl, rfl, rfl, rfl⟩ rfl,
    h.2.1 exampleBody [] "Maintenance" "WARNING" "DB down 10pm" true true false
      storeAfterUpdate rfl ⟨rfl, rfl, rfl, rfl, rfl, rfl⟩ rfl,
    h.2.2 storeAfterDelete rfl⟩

/-- C3. When `AlertsList(limit, offset)` returns `(alerts, totalCount, nil)` for the
limit and offset the helper produced, the list handler answers 200 with exactly
the sequence `alerts` as data and the pagination metadata
`count = totalCount`, `offset`, `limit`.  The count is the reported total: it is
the same whatever sequence is returned as the page. -/
theorem list_success_response (db : AlertStore σ) (hp : Helpers) (r : Request)
    (st : World σ) (limit offset : Int) (hw : List Written) (s1 : σ)
    (alerts : List Alert) (totalCount : Int)
    (hreq : hp.getLimitOffsetFromRequest r = ((limit, offset), hw))
    (hdb : db.AlertsList st.store limit offset = (s1, alerts, totalCount, none)) :
    handleGetAlerts db hp r st =
      (Outcome.returned,
        { store := s1, ActiveAlerts := st.ActiveAlerts,
          w := st.w ++ hw ++
            [Written.success 200 alerts
              (some { Count := totalCount, Offset := offset, Limit := limit })],
          calls := st.calls ++ [DbCall.alertsList limit offset] }) := by
  simp [handleGetAlerts, hreq, hdb, Success, StatusOK]

/-- Witness of C3: the page of size 2 at offset 1 of the three example alerts holds
the last two of them and reports the total 3. -/
theorem list_success_response_witness :
    handleGetAlerts specStore exampleHelpers exampleRequest (exampleWorld exampleStore) =
      (Outcome.returned,
        { store := exampleStore, ActiveAlerts := [staleAlert],
          w := [Written.success 200 (exampleAlerts.drop 1)
            (some { Count := 3, Offset := 1, Limit := 2 })],
          calls := [DbCall.alertsList 2 1] }) :=
  list_success_response specStore exampleHelpers exampleRequest (exampleWorld exampleStore)
    2 1 [] exampleStore (exampleAlerts.drop 1) 3 rfl rfl

/-- C4. With the persistence layer of the specification, for a limit and an offset
that are not negative, a successful list response carries at most `limit` items
in its data. -/
theorem list_at_most_limit (hp : Helpers) (r : Request) (st : World SpecStore)
    (limit offset : Int) (hw : List Written) (status : Nat) (data : List Alert)
    (meta : Option pagination)
    (hreq : hp.getLimitOffsetFromRequest r = ((limit, offset), hw))
    (hlimit : 0 ≤ limit) (_hoffset : 0 ≤ offset)
    (hresp : (handleGetAlerts specStore hp r st).2.w =
      st.w ++ hw ++ [Written.success status data meta]) :
    (data.length : Int) ≤ limit := by
  cases hf : st.store.fault with
  | some e =>
    simp [handleGetAlerts, hreq, specStore, SpecStore.AlertsList, hf, Failure] at hresp
  | none =>
    simp [handleGetAlerts, hreq, specStore, SpecStore.AlertsList, hf, Success] at hresp
    obtain ⟨-, hdata, -⟩ := hresp
    subst hdata
    have hlen : ((st.store.alerts.drop offset.toNat).take limit.toNat).length ≤ limit.toNat :=
      List.length_take_le _ _
    have hnat : ((limit.toNat : Nat) : Int) = limit := Int.toNat_of_nonneg hlimit
    omega

/-- Witness of C4: the page of size 2 at offset 1 of the three example alerts is a
successful response with two items. -/
theorem list_at_most_limit_witness :
    (handleGetAlerts specStore exampleHelpers exampleRequest (exampleWorld exampleStore)).2.w =
      [] ++ [] ++ [Written.success 200 (exampleAlerts.drop 1)
        (some { Count := 3, Offset := 1, Limit := 2 })] ∧
    (((exampleAlerts.drop 1).length : Nat) : Int) ≤ 2 :=
  ⟨rfl, list_at_most_limit exampleHelpers exampleRequest (exampleWorld exampleStore) 2 1 [] 200
    (exampleAlerts.drop 1) (some { Count := 3, Offset := 1, Limit := 2 }) rfl (by decide)
    (by decide) rfl⟩

/-- C10. The list handler only reads.  Whether `AlertsList` succeeds or fails, the
whole result is fixed by the one value `AlertsList(limit, offset)` on the prior
store: the store after the call is the one `AlertsList` left, the single
response is the failure 500 or the success 200 built from it, and
`ActiveAlerts` after the call is its value before the call.  `GetActiveAlerts`
is never called: replacing it by any other function `g` changes nothing in the
result, and so does replacing the whole persistence layer by one that agrees
on that one `AlertsList` value; the call log holds the `AlertsList` call only.
A run started from any other cache value `c` gives the same outcome, store,
response and calls, with `c` left in place. -/
theorem list_is_read_only (db : AlertStore σ) (hp : Helpers) (r : Request) (st : World σ) :
    handleGetAlerts db hp r st =
      (Outcome.returned,
        { store := (db.AlertsList st.store (hp.getLimitOffsetFromRequest r).1.1
            (hp.getLimitOffsetFromRequest r).1.2).1,
          ActiveAlerts := st.ActiveAlerts,
          w := st.w ++ (hp.getLimitOffsetFromRequest r).2 ++
            [match (db.AlertsList st.store (hp.getLimitOffsetFromRequest r).1.1
                (hp.getLimitOffsetFromRequest r).1.2).2.2.2 with
              | some e => Written.failure 500 e
              | none =>
                Written.success 200
                  (db.AlertsList st.store (hp.getLimitOffsetFromRequest r).1.1
                    (hp.getLimitOffsetFromRequest r).1.2).2.1
                  (some
                    { Count := (db.AlertsList st.store (hp.getLimitOffsetFromRequest r).1.1
                        (hp.getLimitOffsetFromRequest r).1.2).2.2.1,
                      Offset := (hp.getLimitOffsetFromRequest r).1.2,
                      Limit := (hp.getLimitOffsetFromRequest r).1.1 })],
          calls := st.calls ++ [DbCall.alertsList (hp.getLimitOffsetFromRequest r).1.1
            (hp.getLimitOffsetFromRequest r).1.2] }) ∧
    (∀ (g : σ → σ × List Alert),
      handleGetAlerts { db with GetActiveAlerts := g } hp r st = handleGetAlerts db hp r st) ∧
    (∀ (db2 : AlertStore σ),
      db2.AlertsList st.store (hp.getLimitOffsetFromRequest r).1.1
          (hp.getLimitOffsetFromRequest r).1.2 =
        db.AlertsList st.store (hp.getLimitOffsetFromRequest r).1.1
          (hp.getLimitOffsetFromRequest r).1.2 →
      handleGetAlerts db2 hp r st = handleGetAlerts db hp r st) ∧
    (handleGetAlerts db hp r st).2.ActiveAlerts = st.ActiveAlerts ∧
    (handleGetAlerts db hp r st).2.calls =
      st.calls ++ [DbCall.alertsList (hp.getLimitOffsetFromRequest r).1.1
        (hp.getLimitOffsetFromRequest r).1.2] ∧
    DbCall.getActiveAlerts ∉ (handleGetAlerts db hp r st).2.calls.drop st.calls.length ∧
    ∀ (c : List Alert),
      handleGetAlerts db hp r { st with ActiveAlerts := c } =
        ((handleGetAlerts db hp r st).1,
          { (handleGetAlerts db hp r st).2 with ActiveAlerts := c }) := by
  rcases hreq : hp.getLimitOffsetFromRequest r with ⟨⟨limit, offset⟩, hw⟩
  rcases hdb : db.AlertsList st.store limit offset with ⟨s1, alerts, count, err⟩
  refine ⟨?_, ?_, ?_, ?_, ?_, ?_, ?_⟩
  · cases err <;>
      simp [handleGetAlerts, hreq, hdb, Failure, Success, StatusInternalServerError, StatusOK]
  · intro g
    cases err <;> simp [handleGetAlerts, hreq, hdb]
  · intro db2 h2
    simp only at h2
    cases err <;> simp [handleGetAlerts, hreq, hdb, h2]
  · cases err <;> simp [handleGetAlerts, hreq, hdb]
  · cases err <;> simp [handleGetAlerts, hreq, hdb]
  · cases err <;> simp [handleGetAlerts, hreq, hdb]
  · intro c
    cases err <;> simp [handleGetAlerts, hreq, hdb]

/-- Witness of C10: on the recording persistence layer the list handler leaves a
store that has received the one `AlertsList` call with limit 2 and offset 1 and
nothing else, also when `GetActiveAlerts` is replaced by a function that would
record itself twice; the stale cache is left in place. -/
theorem list_is_read_only_witness :
    (handleGetAlerts recordingStore exampleHelpers exampleRequest recordingWorld).2.store =
      [DbCall.alertsList 2 1] ∧
    (handleGetAlerts
        { recordingStore with
          GetActiveAlerts := fun s =>
            (s ++ [DbCall.getActiveAlerts, DbCall.getActiveAlerts], []) }
        exampleHelpers exampleRequest recordingWorld).2.store = [DbCall.alertsList 2 1] ∧
    (handleGetAlerts recordingStore exampleHelpers exampleRequest
      recordingWorld).2.ActiveAlerts = [staleAlert] := by
  have h := list_is_read_only recordingStore exampleHelpers exampleRequest recordingWorld
  refine ⟨?_, ?_, h.2.2.2.1⟩
  · rw [h.1]
    rfl
  · rw [h.2.1, h.1]
    rfl

/-- C7. When `AlertDelete(alertId)` is a no-op success (no error, store unchanged),
the delete handler answers 200 with the active alerts of the unchanged store as
data, whatever the cache held before (the cache is overwritten with that same
list).  Whatever the store does, the one response the handler writes has status
200 or 500, so the handler never answers 404. -/
theorem delete_noop_success (db : AlertStore σ) (r : Request) (st : World σ)
    (hnoop : db.AlertDelete st.store (varsIndex r.vars "alertId") = (st.store, none)) :
    handleAlertDelete db r st =
      (Outcome.returned,
        { store := (db.GetActiveAlerts st.store).1,
          ActiveAlerts := (db.GetActiveAlerts st.store).2,
          w := st.w ++ [Written.success 200 (db.GetActiveAlerts st.store).2 none],
          calls := st.calls ++
            [DbCall.alertDelete (varsIndex r.vars "alertId"), DbCall.getActiveAlerts] }) ∧
    ∀ (st1 : World σ), ∃ (x : Written),
      (handleAlertDelete db r st1).2.w = st1.w ++ [x] ∧
        (x.status = 200 ∨ x.status = 500) ∧ x.status ≠ 404 := by
  constructor
  · simp [handleAlertDelete, hnoop, Success, StatusOK]
  · intro st1
    rcases hdb : db.AlertDelete st1.store (varsIndex r.vars "alertId") with ⟨s1, err⟩
    cases err with
    | none =>
      exact ⟨Written.success 200 (db.GetActiveAlerts s1).2 none,
        by simp [handleAlertDelete, hdb, Success, StatusOK], by simp [Written.status]⟩
    | some e =>
      exact ⟨Written.failure 500 e,
        by simp [handleAlertDelete, hdb, Failure, StatusInternalServerError],
        by simp [Written.status]⟩

/-- Witness of C7: deleting the unknown alert `"42"` from the example store answers
200 with the two active alerts of the unchanged store, replacing the stale
cache. -/
theorem delete_noop_success_witness :
    handleAlertDelete specStore missingRequest (exampleWorld exampleStore) =
      (Outcome.returned,
        { store := exampleStore,
          ActiveAlerts := (SpecStore.GetActiveAlerts exampleStore).2,
          w := [Written.success 200 (SpecStore.GetActiveAlerts exampleStore).2 none],
          calls := [DbCall.alertDelete "42", DbCall.getActiveAlerts] }) :=
  (delete_noop_success specStore missingRequest (exampleWorld exampleStore) rfl).1

/-- C8. For a body that carries the six fields with their types, the whole result
of create is fixed by the one value
`AlertsCreate(name, type, content, active, allowDismiss, registeredOnly)` on
the prior store, with the body's values in that order and unchanged, and the
whole result of update by the one value
`AlertsUpdate(alertId, name, type, content, active, allowDismiss, registeredOnly)`
with the route variable `alertId` first: the store after the call is the store
that this one call left (passed through `GetActiveAlerts` when it returned no
error), and the response and the cache are built from its result.  The
mutation is made once and with these arguments only: a persistence layer that
agrees with `db` on that one value, and on `GetActiveAlerts` at the store it
left, gives the same result whatever it does elsewhere.  The call log holds
that one call, followed by `GetActiveAlerts` only after a mutation without
error.  The type is any string: the handler forwards it as it is, whether or
not it is one of the five alert types. -/
theorem mutation_arguments_forwarded (db : AlertStore σ) (hp : Helpers) (r : Request)
    (st : World σ) (keyVal : KeyVal) (hw : List Written) (name type content : String)
    (active allowDismiss registeredOnly : Bool)
    (hreq : hp.getJSONRequestBody r = (keyVal, hw))
    (hbody : keyVal.carries name type content active allowDismiss registeredOnly) :
    handleAlertCreate db hp r st =
      (Outcome.returned,
        match db.AlertsCreate st.store name type content active allowDismiss registeredOnly with
        | (s1, some e) =>
          { store := s1, ActiveAlerts := st.ActiveAlerts,
            w := st.w ++ hw ++ [Written.failure 500 e],
            calls := st.calls ++
              [DbCall.alertsCreate name type content active allowDismiss registeredOnly] }
        | (s1, none) =>
          { store := (db.GetActiveAlerts s1).1, ActiveAlerts := (db.GetActiveAlerts s1).2,
            w := st.w ++ hw ++ [Written.success 200 (db.GetActiveAlerts s1).2 none],
            calls := st.calls ++
              [DbCall.alertsCreate name type content active allowDismiss registeredOnly,
                DbCall.getActiveAlerts] }) ∧
    (∀ (db2 : AlertStore σ),
      db2.AlertsCreate st.store name type content active allowDismiss registeredOnly =
        db.AlertsCreate st.store name type content active allowDismiss registeredOnly →
      db2.GetActiveAlerts
          (db.AlertsCreate st.store name type content active allowDismiss registeredOnly).1 =
        db.GetActiveAlerts
          (db.AlertsCreate st.store name type content active allowDismiss registeredOnly).1 →
      handleAlertCreate db2 hp r st = handleAlertCreate db hp r st) ∧
    handleAlertUpdate db hp r st =
      (Outcome.returned,
        match db.AlertsUpdate st.store (varsIndex r.vars "alertId") name type content active
            allowDismiss registeredOnly with
        | (s1, some e) =>
          { store := s1, ActiveAlerts := st.ActiveAlerts,
            w := st.w ++ hw ++ [Written.failure 500 e],
            calls := st.calls ++
              [DbCall.alertsUpdate (varsIndex r.vars "alertId") name type content active
                allowDismiss registeredOnly] }
        | (s1, none) =>
          { store := (db.GetActiveAlerts s1).1, ActiveAlerts := (db.GetActiveAlerts s1).2,
            w := st.w ++ hw ++ [Written.success 200 (db.GetActiveAlerts s1).2 none],
            calls := st.calls ++
              [DbCall.alertsUpdate (varsIndex r.vars "alertId") name type content active
                allowDismiss registeredOnly, DbCall.getActiveAlerts] }) ∧
    (∀ (db2 : AlertStore σ),
      db2.AlertsUpdate st.store (varsIndex r.vars "alertId") name type content active
          allowDismiss registeredOnly =
        db.AlertsUpdate st.store (varsIndex r.vars "alertId") name type content active
          allowDismiss registeredOnly →
      db2.GetActiveAlerts
          (db.AlertsUpdate st.store (varsIndex r.vars "alertId") name type content active
            allowDismiss registeredOnly).1 =
        db.GetActiveAlerts
          (db.AlertsUpdate st.store (varsIndex r.vars "alertId") name type content active
            allowDismiss registeredOnly).1 →
      handleAlertUpdate db2 hp r st = handleAlertUpdate db hp r st) ∧
    (handleAlertCreate db hp r st).2.calls =
      st.calls ++
        DbCall.alertsCreate name type content active allowDismiss registeredOnly ::
          (if (db.AlertsCreate st.store name type content active allowDismiss
              registeredOnly).2 = none
            then [DbCall.getActiveAlerts] else []) ∧
    (handleAlertUpdate db hp r st).2.calls =
      st.calls ++
        DbCall.alertsUpdate (varsIndex r.vars "alertId") name type content active allowDismiss
            registeredOnly ::
          (if (db.AlertsUpdate st.store (varsIndex r.vars "alertId") name type content active
              allowDismiss registeredOnly).2 = none
            then [DbCall.getActiveAlerts] else []) := by
  obtain ⟨h1, h2, h3, h4, h5, h6⟩ := hbody
  rcases hc : db.AlertsCreate st.store name type content active allowDismiss
    registeredOnly with ⟨sc, errc⟩
  rcases hu : db.AlertsUpdate st.store (varsIndex r.vars "alertId") name type content
    active allowDismiss registeredOnly with ⟨su, erru⟩
  refine ⟨?_, ?_, ?_, ?_, ?_, ?_⟩
  · cases errc <;>
      simp [handleAlertCreate, hreq, h1, h2, h3, h4, h5, h6, assertString, assertBool, hc,
        Failure, Success, StatusInternalServerError, StatusOK]
  · intro db2 e1 e2
    simp only at e2
    cases errc <;>
      simp [handleAlertCreate, hreq, h1, h2, h3, h4, h5, h6, assertString, assertBool, hc,
        e1, e2]
  · cases erru <;>
      simp [handleAlertUpdate, hreq, h1, h2, h3, h4, h5, h6, assertString, assertBool, hu,
        Failure, Success, StatusInternalServerError, StatusOK]
  · intro db2 e1 e2
    simp only at e2
    cases erru <;>
      simp [handleAlertUpdate, hreq, h1, h2, h3, h4, h5, h6, assertString, assertBool, hu,
        e1, e2]
  · cases errc <;>
      simp [handleAlertCreate, hreq, h1, h2, h3, h4, h5, h6, assertString, assertBool, hc]
  · cases erru <;>
      simp [handleAlertUpdate, hreq, h1, h2, h3, h4, h5, h6, assertString, assertBool, hu]

/-- Witness of C8: a body with the type `BOGUS`, its keys in another order and one
extra key.  The recording persistence layer has received, after create, the one
`AlertsCreate` call with the body's values and `BOGUS` as the type, then
`GetActiveAlerts`; after update, the one `AlertsUpdate` call with the id `"1"`
first.  On the persistence layer of the specification it is the store, not the
handler, that refuses `BOGUS`. -/
theorem mutation_arguments_forwarded_witness :
    (handleAlertCreate recordingStore bogusHelpers exampleRequest recordingWorld).2.store =
      [DbCall.alertsCreate "n" "BOGUS" "c" false true true, DbCall.getActiveAlerts] ∧
    (handleAlertUpdate recordingStore bogusHelpers exampleRequest recordingWorld).2.store =
      [DbCall.alertsUpdate "1" "n" "BOGUS" "c" false true true, DbCall.getActiveAlerts] ∧
    handleAlertCreate specStore bogusHelpers exampleRequest (exampleWorld exampleStore) =
      (Outcome.returned,
        { store := exampleStore, ActiveAlerts := [staleAlert],
          w := [Written.failure 500 "invalid alert type"],
          calls := [DbCall.alertsCreate "n" "BOGUS" "c" false true true] }) := by
  have h := mutation_arguments_forwarded recordingStore bogusHelpers exampleRequest
    recordingWorld bogusBody [] "n" "BOGUS" "c" false true true rfl
    ⟨rfl, rfl, rfl, rfl, rfl, rfl⟩
  have k := mutation_arguments_forwarded specStore bogusHelpers exampleRequest
    (exampleWorld exampleStore) bogusBody [] "n" "BOGUS" "c" false true true rfl
    ⟨rfl, rfl, rfl, rfl, rfl, rfl⟩
  refine ⟨?_, ?_, ?_⟩
  · rw [h.1]
    rfl
  · rw [h.2.2.1]
    rfl
  · rw [k.1]
    rfl

/-- C9. The cache is replaced, not merged: when the persistence mutation of create,
update or delete succeeds, two runs that differ only in the prior value of
`ActiveAlerts` (`c1` or `c2`) end with the same outcome and the same world
(store, cache, response, calls), and the cache they end with is the list that
`GetActiveAlerts()` returned, so nothing of the prior cache is kept unless that
list has it. -/
theorem cache_fully_replaced (db : AlertStore σ) (hp : Helpers) (r : Request)
    (st : World σ) (c1 c2 : List Alert) :
    (∀ (keyVal : KeyVal) (hw : List Written) (name type content : String)
        (active allowDismiss registeredOnly : Bool) (s1 : σ),
      hp.getJSONRequestBody r = (keyVal, hw) →
      keyVal.carries name type content active allowDismiss registeredOnly →
      db.AlertsCreate st.store name type content active allowDismiss registeredOnly
        = (s1, none) →
      handleAlertCreate db hp r { st with ActiveAlerts := c1 } =
        handleAlertCreate db hp r { st with ActiveAlerts := c2 } ∧
      (handleAlertCreate db hp r { st with ActiveAlerts := c1 }).2.ActiveAlerts =
        (db.GetActiveAlerts s1).2) ∧
    (∀ (keyVal : KeyVal) (hw : List Written) (name type content : String)
        (active allowDismiss registeredOnly : Bool) (s1 : σ),
      hp.getJSONRequestBody r = (keyVal, hw) →
      keyVal.carries name type content active allowDismiss registeredOnly →
      db.AlertsUpdate st.store (varsIndex r.vars "alertId") name type content active
        allowDismiss registeredOnly = (s1, none) →
      handleAlertUpdate db hp r { st with ActiveAlerts := c1 } =
        handleAlertUpdate db hp r { st with ActiveAlerts := c2 } ∧
      (handleAlertUpdate db hp r { st with ActiveAlerts := c1 }).2.ActiveAlerts =
        (db.GetActiveAlerts s1).2) ∧
    (∀ (s1 : σ),
      db.AlertDelete st.store (varsIndex r.vars "alertId") = (s1, none) →
      handleAlertDelete db r { st with ActiveAlerts := c1 } =
        handleAlertDelete db r { st with ActiveAlerts := c2 } ∧
      (handleAlertDelete db r { st with ActiveAlerts := c1 }).2.ActiveAlerts =
        (db.GetActiveAlerts s1).2) := by
  refine ⟨?_, ?_, ?_⟩
  · intro keyVal hw name type content active allowDismiss registeredOnly s1 hreq hbody hdb
    obtain ⟨h1, h2, h3, h4, h5, h6⟩ := hbody
    simp [handleAlertCreate, hreq, h1, h2, h3, h4, h5, h6, assertString, assertBool, hdb]
  · intro keyVal hw name type content active allowDismiss registeredOnly s1 hreq hbody hdb
    obtain ⟨h1, h2, h3, h4, h5, h6⟩ := hbody
    simp [handleAlertUpdate, hreq, h1, h2, h3, h4, h5, h6, assertString, assertBool, hdb]
  · intro s1 hdb
    simp [handleAlertDelete, hdb]

/-- Witness of C9: on the example store, create, update and delete started from the
stale cache and from the empty cache end in the same world, whose cache is the
active-alert list of the store after the mutation. -/
theorem cache_fully_replaced_witness :
    (handleAlertCreate specStore exampleHelpers exampleRequest
        { exampleWorld exampleStore with ActiveAlerts := [staleAlert] } =
      handleAlertCreate specStore exampleHelpers exampleRequest
        { exampleWorld exampleStore with ActiveAlerts := [] } ∧
      (handleAlertCreate specStore exampleHelpers exampleRequest
        { exampleWorld exampleStore with ActiveAlerts := [staleAlert] }).2.ActiveAlerts =
        (specStore.GetActiveAlerts storeAfterCreate).2) ∧
    (handleAlertUpdate specStore exampleHelpers exampleRequest
        { exampleWorld exampleStore with ActiveAlerts := [staleAlert] } =
      handleAlertUpdate specStore exampleHelpers exampleRequest
        { exampleWorld exampleStore with ActiveAlerts := [] } ∧
      (handleAlertUpdate specStore exampleHelpers exampleRequest
        { exampleWorld exampleStore with ActiveAlerts := [staleAlert] }).2.ActiveAlerts =
        (specStore.GetActiveAlerts storeAfterUpdate).2) ∧
    (handleAlertDelete specStore exampleRequest
        { exampleWorld exampleStore with ActiveAlerts := [staleAlert] } =
      handleAlertDelete specStore exampleRequest
        { exampleWorld exampleStore with ActiveAlerts := [] } ∧
      (handleAlertDelete specStore exampleRequest
        { exampleWorld exampleStore with ActiveAlerts := [staleAlert] }).2.ActiveAlerts =
        (specStore.GetActiveAlerts storeAfterDelete).2) := by
  have h := cache_fully_replaced specStore exampleHelpers exampleRequest
    (exampleWorld exampleStore) [staleAlert] []
  exact ⟨h.1 exampleBody [] "Maintenance" "WARNING" "DB down 10pm" true true false
      storeAfterCreate rfl ⟨rfl, rfl, rfl, rfl, rfl, rfl⟩ rfl,
    h.2.1 exampleBody [] "Maintenance" "WARNING" "DB down 10pm" true true false
      storeAfterUpdate rfl ⟨rfl, rfl, rfl, rfl, rfl, rfl⟩ rfl,
    h.2.2 storeAfterDelete rfl⟩

/-- C6. Create and update end in a panic exactly when the decoded body is defective
(one of `name`, `type`, `content` absent or not a string, or one of `active`,
`allowDismiss`, `registeredOnly` absent or not a boolean).  In that case the
world after the call is the world before it plus what the body helper wrote:
no call on the persistence layer (neither the mutation nor `GetActiveAlerts`),
`ActiveAlerts` unchanged, and no response written by the handler.  With all six
fields present and typed the handler returns. -/
theorem defective_body_panics (db : AlertStore σ) (hp : Helpers) (r : Request)
    (st : World σ) (keyVal : KeyVal) (hw : List Written)
    (hreq : hp.getJSONRequestBody r = (keyVal, hw)) :
    ((handleAlertCreate db hp r st).1 = Outcome.panicked ↔ keyVal.defective = true) ∧
    (keyVal.defective = true →
      (handleAlertCreate db hp r st).2 = { st with w := st.w ++ hw }) ∧
    (keyVal.defective = false → (handleAlertCreate db hp r st).1 = Outcome.returned) ∧
    ((handleAlertUpdate db hp r st).1 = Outcome.panicked ↔ keyVal.defective = true) ∧
    (keyVal.defective = true →
      (handleAlertUpdate db hp r st).2 = { st with w := st.w ++ hw }) ∧
    (keyVal.defective = false → (handleAlertUpdate db hp r st).1 = Outcome.returned) := by
  have e1 := assertString_index_eq_none keyVal "name"
  have e2 := assertString_index_eq_none keyVal "type"
  have e3 := assertString_index_eq_none keyVal "content"
  have e4 := assertBool_index_eq_none keyVal "active"
  have e5 := assertBool_index_eq_none keyVal "allowDismiss"
  have e6 := assertBool_index_eq_none keyVal "registeredOnly"
  cases h1 : assertString (keyVal.index "name") with
  | none => simp [handleAlertCreate, handleAlertUpdate, hreq, h1, KeyVal.defective, e1.mp h1]
  | some name =>
  cases h2 : assertString (keyVal.index "type") with
  | none => simp [handleAlertCreate, handleAlertUpdate, hreq, h1, h2, KeyVal.defective, e2.mp h2]
  | some type =>
  cases h3 : assertString (keyVal.index "content") with
  | none =>
    simp [handleAlertCreate, handleAlertUpdate, hreq, h1, h2, h3, KeyVal.defective, e3.mp h3]
  | some content =>
  cases h4 : assertBool (keyVal.index "active") with
  | none =>
    simp [handleAlertCreate, handleAlertUpdate, hreq, h1, h2, h3, h4, KeyVal.defective,
      e4.mp h4]
  | some active =>
  cases h5 : assertBool (keyVal.index "allowDismiss") with
  | none =>
    simp [handleAlertCreate, handleAlertUpdate, hreq, h1, h2, h3, h4, h5, KeyVal.defective,
      e5.mp h5]
  | some allowDismiss =>
  cases h6 : assertBool (keyVal.index "registeredOnly") with
  | none =>
    simp [handleAlertCreate, handleAlertUpdate, hreq, h1, h2, h3, h4, h5, h6,
      KeyVal.defective, e6.mp h6]
  | some registeredOnly =>
    have d1 : keyVal.hasString "name" = true := by
      cases hs : keyVal.hasString "name" with
      | true => rfl
      | false => rw [e1.mpr hs] at h1; cases h1
    have d2 : keyVal.hasString "type" = true := by
      cases hs : keyVal.hasString "type" with
      | true => rfl
      | false => rw [e2.mpr hs] at h2; cases h2
    have d3 : keyVal.hasString "content" = true := by
      cases hs : keyVal.hasString "content" with
      | true => rfl
      | false => rw [e3.mpr hs] at h3; cases h3
    have d4 : keyVal.hasBool "active" = true := by
      cases hs : keyVal.hasBool "active" with
      | true => rfl
      | false => rw [e4.mpr hs] at h4; cases h4
    have d5 : keyVal.hasBool "allowDismiss" = true := by
      cases hs : keyVal.hasBool "allowDismiss" with
      | true => rfl
      | false => rw [e5.mpr hs] at h5; cases h5
    have d6 : keyVal.hasBool "registeredOnly" = true := by
      cases hs : keyVal.hasBool "registeredOnly" with
      | true => rfl
      | false => rw [e6.mpr hs] at h6; cases h6
    rcases hc : db.AlertsCreate st.store name type content active allowDismiss
      registeredOnly with ⟨sc, errc⟩
    rcases hu : db.AlertsUpdate st.store (varsIndex r.vars "alertId") name type content
      active allowDismiss registeredOnly with ⟨su, erru⟩
    cases errc <;> cases erru <;>
      simp [handleAlertCreate, handleAlertUpdate, hreq, h1, h2, h3, h4, h5, h6,
        KeyVal.defective, d1, d2, d3, d4, d5, d6, hc, hu]

/-- Witness of C6: a body whose `content` is missing and whose `active` is a string
makes create and update panic; the store, the cache and the call log are
untouched and the only write is the 400 header of the body helper. -/
theorem defective_body_panics_witness :
    handleAlertCreate specStore defectiveHelpers exampleRequest (exampleWorld exampleStore) =
      (Outcome.panicked,
        { store := exampleStore, ActiveAlerts := [staleAlert], w := [Written.header 400],
          calls := [] }) ∧
    handleAlertUpdate specStore defectiveHelpers exampleRequest (exampleWorld exampleStore) =
      (Outcome.panicked,
        { store := exampleStore, ActiveAlerts := [staleAlert], w := [Written.header 400],
          calls := [] }) := by
  have h := defective_body_panics specStore defectiveHelpers exampleRequest
    (exampleWorld exampleStore) defectiveBody [Written.header 400] rfl
  exact ⟨Prod.ext (h.1.mpr rfl) (h.2.1 rfl), Prod.ext (h.2.2.2.1.mpr rfl) (h.2.2.2.2.1 rfl)⟩

/-- Replacing the fields of the alerts with a given id keeps every id. -/
theorem any_id_map_replace (alerts : List Alert) (id name type content : String)
    (active allowDismiss registeredOnly : Bool) :
    (alerts.map (fun a =>
        if a.ID == id then
          a.replaceFields name type content active allowDismiss registeredOnly
        else a)).any (fun a => a.ID == id) = alerts.any (fun a => a.ID == id) := by
  induction alerts with
  | nil => rfl
  | cons a rest ih =>
    simp only [List.map_cons, List.any_cons, ih]
    by_cases h : (a.ID == id) = true <;> simp [h, Alert.replaceFields]

/-- Replacing the fields of the alerts with a given id a second time, with the same
values, changes nothing. -/
theorem map_replace_twice (alerts : List Alert) (id name type content : String)
    (active allowDismiss registeredOnly : Bool) :
    (alerts.map (fun a =>
        if a.ID == id then
          a.replaceFields name type content active allowDismiss registeredOnly
        else a)).map (fun a =>
        if a.ID == id then
          a.replaceFields name type content active allowDismiss registeredOnly
        else a) =
      alerts.map (fun a =>
        if a.ID == id then
          a.replaceFields name type content active allowDismiss registeredOnly
        else a) := by
  induction alerts with
  | nil => rfl
  | cons a rest ih =>
    simp only [List.map_cons, ih]
    by_cases h : (a.ID == id) = true <;> simp [h, Alert.replaceFields]

/-- The result of `AlertsUpdate` on the persistence layer of the specification
when the call goes through: all fields of the alert with the id are replaced. -/
theorem SpecStore.AlertsUpdate_ok (s : SpecStore) (id name type content : String)
    (active allowDismiss registeredOnly : Bool) (hf : s.fault = none)
    (ht : alertTypes.contains type = true) (hs : (s.strictIDs && !s.hasID id) = false) :
    SpecStore.AlertsUpdate s id name type content active allowDismiss registeredOnly =
      ({ s with alerts := s.alerts.map (fun a =>
          if a.ID == id then
            a.replaceFields name type content active allowDismiss registeredOnly
          else a) }, none) := by
  unfold SpecStore.AlertsUpdate
  rw [hf]
  simp only [ht, hs, if_true, Bool.false_eq_true, if_false]

/-- The result of `AlertsUpdate` on the persistence layer of the specification
when the call is refused: the state is the one before the call. -/
theorem SpecStore.AlertsUpdate_refused (s : SpecStore) (id name type content : String)
    (active allowDismiss registeredOnly : Bool)
    (h : s.fault ≠ none ∨ alertTypes.contains type = false ∨
      (s.strictIDs && !s.hasID id) = true) :
    (SpecStore.AlertsUpdate s id name type content active allowDismiss registeredOnly).1 = s := by
  unfold SpecStore.AlertsUpdate
  cases hf : s.fault with
  | some e => rfl
  | none =>
    by_cases ht : alertTypes.contains type = true
    · by_cases hs : (s.strictIDs && !s.hasID id) = true
      · simp only [ht, hs, if_true]
      · rcases h with h | h | h
        · exact absurd hf h
        · rw [ht] at h; cases h
        · exact absurd h hs
    · simp only [ht, Bool.false_eq_true, if_false]

/-- On the persistence layer of the specification, `AlertsUpdate` applied to the
state it produced, with the same arguments, returns that state and the same
error. -/
theorem SpecStore.AlertsUpdate_twice (s : SpecStore) (id name type content : String)
    (active allowDismiss registeredOnly : Bool) :
    SpecStore.AlertsUpdate
        (SpecStore.AlertsUpdate s id name type content active allowDismiss registeredOnly).1
        id name type content active allowDismiss registeredOnly =
      SpecStore.AlertsUpdate s id name type content active allowDismiss registeredOnly := by
  by_cases h : s.fault ≠ none ∨ alertTypes.contains type = false ∨
      (s.strictIDs && !s.hasID id) = true
  · rw [SpecStore.AlertsUpdate_refused s id name type content active allowDismiss
      registeredOnly h]
  · have hf : s.fault = none := by
      by_contra hc
      exact h (Or.inl hc)
    have ht : alertTypes.contains type = true := by
      cases hc : alertTypes.contains type with
      | true => rfl
      | false => exact absurd (Or.inr (Or.inl hc)) h
    have hs : (s.strictIDs && !s.hasID id) = false := by
      cases hc : (s.strictIDs && !s.hasID id) with
      | false => rfl
      | true => exact absurd (Or.inr (Or.inr hc)) h
    have hs2 : (s.strictIDs && !((s.alerts.map (fun a =>
        if a.ID == id then
          a.replaceFields name type content active allowDismiss registeredOnly
        else a)).any (fun a => a.ID == id))) = false := by
      rw [any_id_map_replace]
      exact hs
    rw [SpecStore.AlertsUpdate_ok s id name type content active allowDismiss registeredOnly
      hf ht hs]
    have hnext := SpecStore.AlertsUpdate_ok
      { s with alerts := s.alerts.map (fun a =>
          if a.ID == id then
            a.replaceFields name type content active allowDismiss registeredOnly
          else a) }
      id name type content active allowDismiss registeredOnly hf ht hs2
    rw [map_replace_twice] at hnext
    exact hnext

/-- C5. Update is idempotent on the persistence layer of the specification: for
every store state, alert id and six field values, running the update handler
twice in succession with the same request leaves, after the second run, the
store that the first run left (the store `AlertsUpdate` produced), the same
`ActiveAlerts`, the same outcome, and the second run writes the same response as
the first (status 200 or 500). -/
theorem update_idempotent (hp : Helpers) (r : Request) (st : World SpecStore)
    (keyVal : KeyVal) (hw : List Written) (name type content : String)
    (active allowDismiss registeredOnly : Bool)
    (hreq : hp.getJSONRequestBody r = (keyVal, hw))
    (hbody : keyVal.carries name type content active allowDismiss registeredOnly) :
    (handleAlertUpdate specStore hp r st).2.store =
      (SpecStore.AlertsUpdate st.store (varsIndex r.vars "alertId") name type content active
        allowDismiss registeredOnly).1 ∧
    (handleAlertUpdate specStore hp r (handleAlertUpdate specStore hp r st).2).2.store =
      (handleAlertUpdate specStore hp r st).2.store ∧
    (handleAlertUpdate specStore hp r (handleAlertUpdate specStore hp r st).2).2.ActiveAlerts =
      (handleAlertUpdate specStore hp r st).2.ActiveAlerts ∧
    (handleAlertUpdate specStore hp r (handleAlertUpdate specStore hp r st).2).1 =
      (handleAlertUpdate specStore hp r st).1 ∧
    ∃ (resp : Written),
      (handleAlertUpdate specStore hp r st).2.w = st.w ++ hw ++ [resp] ∧
      (handleAlertUpdate specStore hp r (handleAlertUpdate specStore hp r st).2).2.w =
        (handleAlertUpdate specStore hp r st).2.w ++ hw ++ [resp] ∧
      (resp.status = 200 ∨ resp.status = 500) := by
  obtain ⟨h1, h2, h3, h4, h5, h6⟩ := hbody
  have htwice := SpecStore.AlertsUpdate_twice st.store (varsIndex r.vars "alertId") name type
    content active allowDismiss registeredOnly
  rcases hu : SpecStore.AlertsUpdate st.store (varsIndex r.vars "alertId") name type content
    active allowDismiss registeredOnly with ⟨s1, err⟩
  rw [hu] at htwice
  cases err with
  | some e =>
    refine ⟨?_, ?_, ?_, ?_, Written.failure 500 e, ?_, ?_, ?_⟩ <;>
      simp [handleAlertUpdate, hreq, h1, h2, h3, h4, h5, h6, assertString, assertBool,
        specStore, hu, htwice, Failure, StatusInternalServerError, Written.status]
  | none =>
    refine ⟨?_, ?_, ?_, ?_,
      Written.success 200 (SpecStore.GetActiveAlerts s1).2 none, ?_, ?_, ?_⟩ <;>
      simp [handleAlertUpdate, hreq, h1, h2, h3, h4, h5, h6, assertString, assertBool,
        specStore, hu, htwice, Success, StatusOK, Written.status, SpecStore.GetActiveAlerts]

/-- Witness of C5: updating alert `"1"` of the example store twice with the example
body leaves, both times, the store with that alert replaced, and the second run
ends with the cache and the outcome of the first. -/
theorem update_idempotent_witness :
    (handleAlertUpdate specStore exampleHelpers exampleRequest
      (exampleWorld exampleStore)).2.store = storeAfterUpdate ∧
    (handleAlertUpdate specStore exampleHelpers exampleRequest
      (handleAlertUpdate specStore exampleHelpers exampleRequest
        (exampleWorld exampleStore)).2).2.store =
      (handleAlertUpdate specStore exampleHelpers exampleRequest
        (exampleWorld exampleStore)).2.store ∧
    (handleAlertUpdate specStore exampleHelpers exampleRequest
      (handleAlertUpdate specStore exampleHelpers exampleRequest
        (exampleWorld exampleStore)).2).2.ActiveAlerts =
      (handleAlertUpdate specStore exampleHelpers exampleRequest
        (exampleWorld exampleStore)).2.ActiveAlerts ∧
    (handleAlertUpdate specStore exampleHelpers exampleRequest
      (handleAlertUpdate specStore exampleHelpers exampleRequest
        (exampleWorld exampleStore)).2).1 =
      (handleAlertUpdate specStore exampleHelpers exampleRequest
        (exampleWorld exampleStore)).1 := by
  have h := update_idempotent exampleHelpers exampleRequest (exampleWorld exampleStore)
    exampleBody [] "Maintenance" "WARNING" "DB down 10pm" true true false rfl
    ⟨rfl, rfl, rfl, rfl, rfl, rfl⟩
  exact ⟨h.1.trans rfl, h.2.1, h.2.2.1, h.2.2.2.1⟩

end Theorems

end Thunderdome
